import Mathlib

/-!
Shallow embedding of `main.py` of the drive_checker repository.

The program shells out to external tools (`fdisk`, `mount`, `umount`,
`udevadm`), reads a filesystem, and interacts with an operator.  Each of
these effects is modelled as explicit data handed to the embedded
function: the text the tool printed, the validated answer the operator
gave, a tree describing the directory structure that is visible at the
mount point.  Machine behaviour of Python that matters here (string
`split`, `startswith`, substring tests, `re.match` on the concrete
patterns of the source, `pathlib.Path.suffix`, truthiness of
`None`/`True` return values, uncaught exceptions) is reproduced
faithfully; exceptions are modelled with `Except`.
-/

/-- Python exception kinds that the embedded code can raise. -/
inductive PyError where
  | timeoutExpired
  | attributeError
  | keyError
  | unboundLocalError
  | assertionError
  | fileNotFoundError
  | notADirectoryError
  deriving DecidableEq, Repr

/-- Result of the `subprocess.run(['/usr/bin/fdisk', '-l', disk], timeout=10)`
call: either the 10-second bound was exceeded (Python raises
`subprocess.TimeoutExpired`) or the tool finished and produced stdout. -/
inductive FdiskResult where
  | timeout
  | output (stdout : String)
  deriving DecidableEq, Repr

/-- Python `str.split('\n')`: split a character list at every separator,
keeping empty pieces (so the result is always nonempty). -/
def splitOnChar (sep : Char) : List Char → List (List Char)
  | [] => [[]]
  | c :: rest =>
    let r := splitOnChar sep rest
    if c = sep then [] :: r
    else
      match r with
      | h :: t => (c :: h) :: t
      | [] => [[c]]

/-- Python `s.split('\n')` for strings. -/
def pySplitLines (s : String) : List String :=
  (splitOnChar '\n' s.data).map (fun l => String.mk l)

/-- Python `p.startswith(s)` / an anchored `re.match` on a literal pattern. -/
def strStartsWith (s pat : String) : Bool :=
  pat.data.isPrefixOf s.data

/-- Helper for substring search: does `p` occur in the character list? -/
def containsAux (p : List Char) : List Char → Bool
  | [] => p.isEmpty
  | c :: rest => p.isPrefixOf (c :: rest) || containsAux p rest

/-- Python `pat in s` (substring containment). -/
def strContains (s pat : String) : Bool :=
  containsAux pat.data s.data

/-- Characters after the last occurrence of `pat` in `cs`, if `pat` occurs
(`none` otherwise).  This is what group 1 of a greedy anchored
`re.match(".*PAT(.*)", line)` yields when it succeeds. -/
def dropThroughLast (pat : List Char) : List Char → Option (List Char)
  | [] => if pat.isEmpty then some [] else Option.none
  | c :: rest =>
    match dropThroughLast pat rest with
    | some r => some r
    | Option.none =>
      if pat.isPrefixOf (c :: rest) then some ((c :: rest).drop pat.length)
      else Option.none

/-- `is_ntfs_partition` from the source: the line is an NTFS candidate if it
contains `'NTFS'` or `'Microsoft basic data'`. -/
def is_ntfs_partition (fdisk_line : String) : Bool :=
  if strContains fdisk_line "NTFS" then true
  else if strContains fdisk_line "Microsoft basic data" then true
  else false

/-- The anchored pattern `re.match('(/dev/sd[a-z][0-9]).*', x)` of
`get_ntfs_partitions`: succeeds iff the line starts with `/dev/sd`, one
lowercase letter and one digit; group 1 is those first nine characters.
`none` models the match failing, in which case the source calls
`.group(1)` on `None` and raises `AttributeError`. -/
def extractPartitionPath (line : String) : Option String :=
  match line.data with
  | '/' :: 'd' :: 'e' :: 'v' :: '/' :: 's' :: 'd' :: l :: n :: _ =>
    if ('a' ≤ l && l ≤ 'z') && ('0' ≤ n && n ≤ '9') then
      some (String.mk ['/', 'd', 'e', 'v', '/', 's', 'd', l, n])
    else Option.none
  | _ => Option.none

/-- Forcing of the lazy `map` in `get_ntfs_partitions`: extract the
partition path from every kept line, left to right; the first line the
pattern rejects raises `AttributeError` (`.group(1)` on `None`). -/
def extractAll : List String → Except PyError (List String)
  | [] => .ok []
  | l :: rest =>
    match extractPartitionPath l with
    | Option.none => .error PyError.attributeError
    | some p =>
      match extractAll rest with
      | .error e => .error e
      | .ok ps => .ok (p :: ps)

/-- The lines of the fdisk output that `get_ntfs_partitions` keeps: the two
`filter` steps of the source (prefixed by the disk path, then carrying an
NTFS-or-basic-data marker). -/
def keptLines (disk : String) (out : String) : List String :=
  ((pySplitLines out).filter (fun x => strStartsWith x disk)).filter
    (fun x => is_ntfs_partition x)

/-- `get_ntfs_partitions` from the source.  A timeout of the external tool
raises `TimeoutExpired`; otherwise stdout is split into lines, lines
prefixed by the disk path and containing an NTFS marker are kept, and the
partition path is extracted from each kept line (the trailing
`if len > 0 else ()` of the source is the identity and is dropped). -/
def get_ntfs_partitions (disk : String) (res : FdiskResult) :
    Except PyError (List String) :=
  match res with
  | .timeout => .error PyError.timeoutExpired
  | .output out => extractAll (keptLines disk out)

/-- `is_mounted` from the source, over the stdout of `/usr/bin/mount`.
The `assert` demands at least one argument.  With both arguments the regex
is `"{part} on {dest} .*"` (anchored, all concrete arguments of the
program are free of regex metacharacters); with only `dest` it is
`".* on {dest} .*"`.  With only `part` the branch chain of the source
assigns no regex at all — its third condition `elif dest is not None`
is unreachable there — so the first loop iteration (the line list of a
`split` is never empty) raises `UnboundLocalError`. -/
def is_mounted (part : Option String) (dest : Option String)
    (mountStdout : String) : Except PyError Bool :=
  match part, dest with
  | Option.none, Option.none => .error PyError.assertionError
  | some p, some d =>
    .ok ((pySplitLines mountStdout).any
      (fun line => strStartsWith line (p ++ " on " ++ d ++ " ")))
  | Option.none, some d =>
    .ok ((pySplitLines mountStdout).any
      (fun line => strContains line (" on " ++ d ++ " ")))
  | some _, Option.none => .error PyError.unboundLocalError

/-- `get_disk_serial` from the source: first stdout line of `udevadm` on
which `re.match(".*ID_SERIAL_SHORT=(.*)", line)` succeeds yields its
group 1 (the text after the last occurrence, `.*` being greedy); if no
line matches, the empty string is returned after a warning. -/
def get_disk_serial (udevOut : String) : String :=
  match (pySplitLines udevOut).find?
      (fun l => strContains l "ID_SERIAL_SHORT=") with
  | some l =>
    String.mk ((dropThroughLast "ID_SERIAL_SHORT=".data l.data).getD [])
  | Option.none => ""

/-- A node of the directory tree visible through the mount point.
`pathlib` semantics modelled: `is_file()` and `is_dir()` follow symbolic
links (a symlink to a regular file is a file, a symlink to a directory is
a directory), `is_symlink()` is true exactly for symlinks, `iterdir()` on
a directory (or a symlink to one) yields its children, and `exists()` is
true for every entry modelled here. -/
inductive FSEntry where
  | file (name : String)
  | dir (name : String) (children : List FSEntry)
  | symlinkFile (name : String)
  | symlinkDir (name : String) (children : List FSEntry)
  deriving Repr

/-- Basename of an entry. -/
def nameOf : FSEntry → String
  | .file n => n
  | .dir n _ => n
  | .symlinkFile n => n
  | .symlinkDir n _ => n

/-- Children yielded by `iterdir()` (empty for non-directories). -/
def childrenOf : FSEntry → List FSEntry
  | .dir _ cs => cs
  | .symlinkDir _ cs => cs
  | _ => []

/-- Python `Path.is_file()` (follows symlinks). -/
def isFileE : FSEntry → Bool
  | .file _ => true
  | .symlinkFile _ => true
  | _ => false

/-- Python `Path.is_dir()` (follows symlinks). -/
def isDirE : FSEntry → Bool
  | .dir _ _ => true
  | .symlinkDir _ _ => true
  | _ => false

/-- Python `Path.is_symlink()`. -/
def isSymlinkE : FSEntry → Bool
  | .symlinkFile _ => true
  | .symlinkDir _ _ => true
  | _ => false

/-- Python `Path(dir, name).exists()`: some child of `dir` has that name. -/
def existsChild (cs : List FSEntry) (n : String) : Bool :=
  cs.any (fun c => nameOf c = n)

/-- `list_files` from the source, over the `iterdir()` listing of the
start directory.  A call whose depth counter is negative returns the
empty tuple; otherwise each child in listing order contributes itself if
`is_file()`, or its recursive listing with counter decremented if it is a
directory and not a symlink; anything else contributes nothing.  Each
returned file is named by its path below the start (one component per
directory level). -/
def list_files (listing : List FSEntry) (max_depth : Int) :
    List (List String) :=
  if max_depth < 0 then []
  else
    match listing with
    | [] => []
    | e :: rest =>
      (if isFileE e then [[nameOf e]]
       else if isDirE e && !isSymlinkE e then
         (list_files (childrenOf e) (max_depth - 1)).map
           (fun p => nameOf e :: p)
       else []) ++ list_files rest max_depth
termination_by sizeOf listing
decreasing_by
  all_goals cases e <;> simp [childrenOf] <;> omega

/-- Python `pathlib.PurePath.suffix` of a file name: `name[i:]` for the
last dot index `i` when `0 < i < len(name) - 1`, else the empty string. -/
def pySuffix (name : String) : String :=
  let cs := name.data
  let afterRev := cs.reverse.takeWhile (fun c => c ≠ '.')
  if afterRev.length = cs.length then ""
  else
    let i := cs.length - afterRev.length - 1
    if 0 < i && i < cs.length - 1 then String.mk (cs.drop i) else ""

/-- Python `str.lower()` (ASCII suffices for the extensions involved). -/
def pyLower (s : String) : String :=
  String.mk (s.data.map Char.toLower)

/-- `IMAGE_EXTENSIONS` from the source. -/
def IMAGE_EXTENSIONS : List String :=
  [".png", ".jpg", ".jpeg", ".cr2"]

/-- `count_images` from the source: walk the user directory with the
default depth bound 5 and count files whose lowercased suffix is an image
extension.  The minimum-size test of the source is commented out, so
every matching extension counts. -/
def count_images (user_dir : FSEntry) : Nat :=
  ((list_files (childrenOf user_dir) 5).filter
    (fun p => IMAGE_EXTENSIONS.contains (pyLower (pySuffix (p.getLastD ""))))).length

/-- The per-directory test of `get_users`: keep children of `Users` that
are directories and directly contain an entry named `ntuser.dat` or
`NTUSER.DAT`. -/
def profileFilter (usersChildren : List FSEntry) : List FSEntry :=
  usersChildren.filter
    (fun d => isDirE d &&
      (existsChild (childrenOf d) "ntuser.dat" ||
       existsChild (childrenOf d) "NTUSER.DAT"))

/-- `get_users` from the source, over the listing of the mounted volume
root.  `Path(MOUNT_POINT, "Users").iterdir()` raises `FileNotFoundError`
when no `Users` entry exists (and `NotADirectoryError` when it is not a
directory); otherwise the profile directories are returned in listing
order. -/
def get_users (volumeRoot : List FSEntry) : Except PyError (List FSEntry) :=
  match volumeRoot.find? (fun c => nameOf c = "Users") with
  | Option.none => .error PyError.fileNotFoundError
  | some u =>
    if isDirE u then .ok (profileFilter (childrenOf u))
    else .error PyError.notADirectoryError

/-- `MOUNT_POINT` from the source. -/
def MOUNT_POINT : String := "/mnt/4"

/-- Externally visible steps the pipeline takes, recorded in order:
invocations of the external mount and umount utilities, operator prompts,
console prints, the `Users` scan, and per-user image reports. -/
inductive SysAction where
  | runMountCmd (part : String) (dest : String)
  | runUnmountCmd (dest : String)
  | askOperator (prompt : String)
  | printMsg (msg : String)
  | scanUsers
  | reportUser (name : String) (images : Nat)
  deriving DecidableEq, Repr

/-- The external environment, as streams of responses consumed in program
order: `mountOuts` are the stdouts of successive `/usr/bin/mount` status
queries, `answers` the validated lowercase operator answers of successive
prompts, `mountExits` whether successive `/usr/bin/mount part dest` calls
exited zero, `volumes` the root listing seen at the mount point by
successive scans, and `udevOut`/`fdisk` the outputs of the one `udevadm`
and `fdisk` call per disk.  An exhausted stream yields a neutral default
(empty output, empty answer, failing exit, empty listing). -/
structure World where
  udevOut : String
  fdisk : FdiskResult
  mountOuts : List String
  answers : List String
  mountExits : List Bool
  volumes : List (List FSEntry)

/-- Pop the next mount-status stdout. -/
def World.popMountOut : World → String × World
  | ⟨u, f, [], an, me, vo⟩ => ("", ⟨u, f, [], an, me, vo⟩)
  | ⟨u, f, o :: rest, an, me, vo⟩ => (o, ⟨u, f, rest, an, me, vo⟩)

/-- Pop the next operator answer. -/
def World.popAnswer : World → String × World
  | ⟨u, f, mo, [], me, vo⟩ => ("", ⟨u, f, mo, [], me, vo⟩)
  | ⟨u, f, mo, a :: rest, me, vo⟩ => (a, ⟨u, f, mo, rest, me, vo⟩)

/-- Pop the next mount-utility exit status (true = exit code zero). -/
def World.popMountExit : World → Bool × World
  | ⟨u, f, mo, an, [], vo⟩ => (false, ⟨u, f, mo, an, [], vo⟩)
  | ⟨u, f, mo, an, e :: rest, vo⟩ => (e, ⟨u, f, mo, an, rest, vo⟩)

/-- Pop the next mount-point root listing. -/
def World.popVolume : World → List FSEntry × World
  | ⟨u, f, mo, an, me, []⟩ => ([], ⟨u, f, mo, an, me, []⟩)
  | ⟨u, f, mo, an, me, v :: rest⟩ => (v, ⟨u, f, mo, an, me, rest⟩)

/-- `mount` from the source.  Return value mirrors Python: `some true` is
the explicit `return True`, `none` is every implicit `return None` —
including the path where something is already mounted at `dest` and the
operator declines, which executes a bare `return`.  When something is
already mounted the external mount utility is never invoked; otherwise it
is invoked once, a non-zero exit is caught (`CalledProcessError`), the
mount table is re-queried, and the operator may be asked to mount
manually, after which only the explicit decline path returns `True`. -/
def mount (part : String) (dest : String) (w : World) :
    Except PyError (Option Bool) × World × List SysAction :=
  let q1 := w.popMountOut
  match is_mounted Option.none (some dest) q1.1 with
  | .error e => (.error e, q1.2, [])
  | .ok true =>
    let a1 := q1.2.popAnswer
    let acts := [SysAction.askOperator
      (part ++ " is already mounted on " ++ dest ++ ", continue?")]
    if a1.1 ≠ "y" then (.ok Option.none, a1.2, acts)
    else (.ok Option.none, a1.2, acts)
  | .ok false =>
    let x := q1.2.popMountExit
    let acts0 := [SysAction.runMountCmd part dest]
    if x.1 then (.ok Option.none, x.2, acts0)
    else
      let q2 := x.2.popMountOut
      match is_mounted (some part) (some dest) q2.1 with
      | .error e => (.error e, q2.2, acts0)
      | .ok true => (.ok Option.none, q2.2, acts0)
      | .ok false =>
        let a2 := q2.2.popAnswer
        let acts1 := acts0 ++ [SysAction.askOperator
          ("Failed to mount " ++ part ++ " at " ++ dest ++ ", do it manually?")]
        if a2.1 ≠ "y" then (.ok (some true), a2.2, acts1)
        else
          let q3 := a2.2.popMountOut
          match is_mounted (some part) (some dest) q3.1 with
          | .error e => (.error e, q3.2, acts1)
          | .ok _ => (.ok Option.none, q3.2, acts1)

/-- `process_ntfs_partition` from the source.  `if mount(...):` tests
Python truthiness, so only the value `True` skips the partition; a `None`
result falls through to the scan.  The scan lists `Users` (which may
raise), then reports an image count per user profile. -/
def process_ntfs_partition (part : String) (w : World) :
    Except PyError Bool × World × List SysAction :=
  match mount part MOUNT_POINT w with
  | (.error e, w1, a) => (.error e, w1, a)
  | (.ok (some true), w1, a) => (.ok true, w1, a)
  | (.ok _, w1, a) =>
    let v := w1.popVolume
    match get_users v.1 with
    | .error e => (.error e, v.2, a ++ [SysAction.scanUsers])
    | .ok users =>
      (.ok false, v.2,
        a ++ [SysAction.scanUsers] ++
          users.map (fun u => SysAction.reportUser (nameOf u) (count_images u)))

/-- The `for partition in partitions` loop of `process_disk`: process each
partition, log a warning on a `True` result, and call
`unmount(partition)` after each partition (note: the source passes the
partition path, not the mount point).  There is no `try`, so an exception
raised while processing a partition aborts the loop — the unmount of that
partition and all later partitions are skipped and the exception
propagates. -/
def processPartsLoop (parts : List String) (w : World) :
    Except PyError Unit × World × List SysAction :=
  match parts with
  | [] => (.ok (), w, [])
  | p :: rest =>
    match process_ntfs_partition p w with
    | (.error e, w1, a) => (.error e, w1, a)
    | (.ok _, w1, a) =>
      match processPartsLoop rest w1 with
      | (r, w2, a2) => (r, w2, (a ++ [SysAction.runUnmountCmd p]) ++ a2)

/-- `process_disk` from the source: look up the serial (never fatal),
print the disk banner, enumerate NTFS partitions — any exception from
that call propagates, there is no handler — and either report that no
NTFS partitions were found or run the partition loop. -/
def process_disk (disk : String) (w : World) :
    Except PyError Unit × World × List SysAction :=
  let serial := get_disk_serial w.udevOut
  let a0 := [SysAction.printMsg ("Found disk " ++ serial)]
  match get_ntfs_partitions disk w.fdisk with
  | .error e => (.error e, w, a0)
  | .ok parts =>
    if parts.length = 0 then
      (.ok (), w, a0 ++ [SysAction.printMsg "Found no NTFS partitions"])
    else
      match processPartsLoop parts w with
      | (r, w1, a1) => (r, w1, a0 ++ a1)

/-- The name filter of `get_disks`: `re.match("^sd[a-z]$", name)` keeps
exactly the three-character names `sd` plus one lowercase letter. -/
def isDiskName (n : String) : Bool :=
  match n.data with
  | ['s', 'd', c] => 'a' ≤ c && c ≤ 'z'
  | _ => false

/-- `get_disks` from the source, over the names of the block-device nodes
currently present under `/dev`: keep whole-disk names and return their
full paths as a set. -/
def get_disks (blockDevNames : List String) : Finset String :=
  ((blockDevNames.filter isDiskName).map (fun n => "/dev/" ++ n)).toFinset

/-- The disk identity `main` removes from the initial snapshot. -/
def EXCLUDED_DISK : String := "/dev/sdc"

/-- Startup of `main`: take the initial snapshot and call
`original_disks.remove(Path('/dev/sdc'))` — Python `set.remove` raises
`KeyError` when the element is absent. -/
def monitorInit (blockDevNames : List String) :
    Except PyError (Finset String) :=
  let s := get_disks blockDevNames
  if EXCLUDED_DISK ∈ s then .ok (s.erase EXCLUDED_DISK)
  else .error PyError.keyError

/-- One iteration of the polling loop of `main`, given the previous
`original_disks` value and the current block-device names: compute
`new_disks`, add them to the known set (each is handed to
`process_disk`), then compute and subtract `removed_disks`.  Returns
(arrived, departed, new known set). -/
def monitorTick (known : Finset String) (blockDevNames : List String) :
    Finset String × Finset String × Finset String :=
  let current := get_disks blockDevNames
  let arrived := current \ known
  let afterAdd := known ∪ arrived
  let departed := afterAdd \ current
  (arrived, departed, afterAdd \ departed)

/-! Helper lemmas about the extraction pass of the partition-table parser
and about the depth-limited walk. -/

/-- When the extraction pass succeeds it produces one path per kept line. -/
theorem extractAll_ok_length {ls ps : List String}
    (h : extractAll ls = .ok ps) : ps.length = ls.length := by
  induction ls generalizing ps with
  | nil =>
    simp only [extractAll] at h
    cases h
    rfl
  | cons l rest ih =>
    simp only [extractAll] at h
    cases hx : extractPartitionPath l with
    | none => rw [hx] at h; cases h
    | some p =>
      rw [hx] at h
      cases hr : extractAll rest with
      | error e => rw [hr] at h; cases h
      | ok qs =>
        rw [hr] at h
        cases h
        simp [ih hr]

/-- When the extraction pass succeeds, the i-th returned path is exactly the
extraction of the i-th kept line: positions are preserved. -/
theorem extractAll_ok_get {ls ps : List String}
    (h : extractAll ls = .ok ps) (i : Nat) (h1 : i < ls.length)
    (h2 : i < ps.length) :
    extractPartitionPath (ls.get ⟨i, h1⟩) = some (ps.get ⟨i, h2⟩) := by
  induction ls generalizing ps i with
  | nil => cases h1
  | cons l rest ih =>
    simp only [extractAll] at h
    cases hx : extractPartitionPath l with
    | none => rw [hx] at h; cases h
    | some p =>
      rw [hx] at h
      cases hr : extractAll rest with
      | error e => rw [hr] at h; cases h
      | ok qs =>
        rw [hr] at h
        cases h
        cases i with
        | zero => simpa using hx
        | succ j =>
          simp only [List.get_cons_succ]
          exact ih hr j (Nat.lt_of_succ_lt_succ h1) (Nat.lt_of_succ_lt_succ h2)

/-- If any line of the list defeats the extraction pattern, the whole
extraction pass raises `AttributeError`. -/
theorem extractAll_error_of_none {ls : List String} {l : String}
    (hm : l ∈ ls) (hx : extractPartitionPath l = Option.none) :
    extractAll ls = .error PyError.attributeError := by
  induction ls with
  | nil => cases hm
  | cons a rest ih =>
    simp only [extractAll]
    cases hm with
    | head => rw [hx]
    | tail _ hm2 =>
      cases ha : extractPartitionPath a with
      | none => rfl
      | some p => rw [ih hm2]

/-- A walk whose depth counter is already negative returns nothing. -/
theorem list_files_neg (listing : List FSEntry) (d : Int) (h : d < 0) :
    list_files listing d = [] := by
  rw [list_files.eq_def]
  simp [h]

/-- Every file the walk returns lies at most `d + 1` path components below
the start: `d` recursive descents plus the file itself. -/
theorem list_files_depth_bound (listing : List FSEntry) (d : Int)
    (p : List String) (hp : p ∈ list_files listing d) :
    (p.length : Int) ≤ d + 1 := by
  induction listing, d using list_files.induct generalizing p with
  | case1 listing d hneg =>
    rw [list_files_neg listing d hneg] at hp
    cases hp
  | case2 d hd =>
    rw [list_files.eq_def] at hp
    simp [hd] at hp
  | case3 d hd e rest ih1 ih2 =>
    rw [list_files.eq_def] at hp
    simp only [if_neg hd, List.mem_append] at hp
    cases hp with
    | inr h2 => exact ih2 p h2
    | inl h1 =>
      by_cases hf : isFileE e = true
      · rw [if_pos hf] at h1
        simp at h1
        subst h1
        simp
        omega
      · rw [if_neg hf] at h1
        by_cases hdir : (isDirE e && !isSymlinkE e) = true
        · rw [if_pos hdir] at h1
          rcases List.mem_map.mp h1 with ⟨q, hq, hpq⟩
          have := ih1 hf hdir q hq
          subst hpq
          simp
          omega
        · rw [if_neg hdir] at h1
          cases h1

/-- A symlink whose target is a regular file is treated as a file: it is
listed by name and the walk continues with the remaining entries. -/
theorem list_files_symlinkFile_cons (f : String) (cs : List FSEntry)
    (d : Int) (h : 0 ≤ d) :
    list_files (FSEntry.symlinkFile f :: cs) d = [f] :: list_files cs d := by
  conv_lhs => rw [list_files.eq_def]
  simp [isFileE, isDirE, isSymlinkE, nameOf, not_lt.mpr h]

/-- A symlink to a directory contributes nothing to the walk: it is
neither listed nor descended into. -/
theorem list_files_symlinkDir_cons (m : String) (sub cs : List FSEntry)
    (d : Int) :
    list_files (FSEntry.symlinkDir m sub :: cs) d = list_files cs d := by
  by_cases h : d < 0
  · rw [list_files_neg _ _ h, list_files_neg _ _ h]
  · conv_lhs => rw [list_files.eq_def]
    simp [isFileE, isDirE, isSymlinkE, h]

/-- The polling-loop step in closed form: arrivals are `current − known`,
departures `known − current`, and the state after the tick is exactly the
current snapshot. -/
theorem monitorTick_spec (known : Finset String) (names : List String) :
    monitorTick known names =
      (get_disks names \ known, known \ get_disks names, get_disks names) := by
  simp only [monitorTick, Prod.mk.injEq]
  refine ⟨trivial, ?_, ?_⟩
  · ext x
    simp only [Finset.mem_sdiff, Finset.mem_union]
    tauto
  · ext x
    simp only [Finset.mem_sdiff, Finset.mem_union, not_and, not_not]
    tauto

/-! Concrete fixtures used by counterexamples and witnesses. -/

/-- A world whose fdisk output holds one well-formed NTFS partition row and
one kept row that defeats the extraction pattern (no digit after the
device letter). -/
def w_badline : World :=
  ⟨"", FdiskResult.output "/dev/sdb1 100 NTFS\n/dev/sdbX NTFS", [], [], [], []⟩

/-- A world in which the fdisk call exceeds its 10-second bound. -/
def w_timeout : World :=
  ⟨"", FdiskResult.timeout, [], [], [], []⟩

/-- A world in which something (`/dev/sda1`) is already mounted at the
mount point and the operator declines the confirmation prompt; the volume
visible at the mount point contains one profile directory. -/
def w_c3 : World :=
  ⟨"", FdiskResult.output "", ["/dev/sda1 on /mnt/4 type ext4 (rw)"], ["n"],
   [],
   [[FSEntry.dir "Users"
       [FSEntry.dir "alice" [FSEntry.file "ntuser.dat", FSEntry.file "a.jpg"]]]]⟩

/-- A mount-table stdout with one line: `/dev/sda1` mounted at `/mnt/4`. -/
def mountTableSample : String := "/dev/sda1 on /mnt/4 type ext4 (rw)"

/-- An fdisk stdout with a banner row, two NTFS-or-basic-data partition
rows and one non-NTFS row. -/
def fdiskSample : String :=
  "Disk /dev/sdb: 100 GiB\n/dev/sdb1  2048  206847 NTFS\n/dev/sdb2 206848 400000 Linux filesystem\n/dev/sdb3 400001 500000 Microsoft basic data\n"

/-- A directory chain five directories deep whose innermost directory
holds one file, so the file sits six path components below the start. -/
def deepTree : FSEntry :=
  FSEntry.dir "a1" [FSEntry.dir "a2" [FSEntry.dir "a3"
    [FSEntry.dir "a4" [FSEntry.dir "a5" [FSEntry.file "deep.jpg"]]]]]

/-- The profile directory of the end-to-end scenario: marker file plus
three files with extensions .jpg, .jpg, .txt. -/
def aliceProfile : FSEntry :=
  FSEntry.dir "alice" [FSEntry.file "ntuser.dat", FSEntry.file "a.jpg",
    FSEntry.file "b.jpg", FSEntry.file "c.txt"]

/-- A users directory without a profile marker. -/
def bobProfile : FSEntry :=
  FSEntry.dir "bob" [FSEntry.file "x.jpg"]

/-- Root listing of the mounted `/dev/sdb1` volume of the scenario. -/
def sdb1Volume : List FSEntry :=
  [FSEntry.dir "Users" [aliceProfile, bobProfile]]

/-! Claim theorems. -/

/-- C1, counterexample: the claim says no exception originating from
partition-table parsing, mounting or scanning propagates out of
`process_disk`.  On a disk whose fdisk output holds a kept line that
defeats the extraction pattern, `process_disk` ends in an uncaught
`AttributeError`: the parsing exception propagates out. -/
theorem spec_c1_counterexample :
    (process_disk "/dev/sdb" w_badline).1 = .error PyError.attributeError := by
  rfl

/-- C1, amended: `process_disk` has no exception handler, so every
exception raised by `get_ntfs_partitions` (the timeout and the extraction
`AttributeError`) propagates out of `process_disk` unchanged; only the
mount utility's non-zero exit is caught, inside `mount`, and converted
into a return value. -/
theorem spec_c1_parse_error_propagates (disk : String) (w : World)
    (e : PyError) (h : get_ntfs_partitions disk w.fdisk = .error e) :
    (process_disk disk w).1 = .error e := by
  unfold process_disk
  rw [h]

/-- C1, witness: the amended theorem applied to the bad-line world. -/
theorem spec_c1_witness :
    get_ntfs_partitions "/dev/sdb" w_badline.fdisk =
      .error PyError.attributeError ∧
    (process_disk "/dev/sdb" w_badline).1 = .error PyError.attributeError :=
  ⟨by rfl,
   spec_c1_parse_error_propagates "/dev/sdb" w_badline PyError.attributeError
     (by rfl)⟩

/-- C2, counterexample: the claim says `/dev/sdc` is never offered to the
orchestrator and never appears in any arrived set.  Starting with
`/dev/sda` and `/dev/sdc` present, startup removes `/dev/sdc` from the
snapshot, and the very first poll tick therefore reports `/dev/sdc` as
arrived — the monitor hands every arrived disk to `process_disk`. -/
theorem spec_c2_counterexample :
    monitorInit ["sda", "sdc"] = .ok {"/dev/sda"} ∧
    EXCLUDED_DISK ∈ (monitorTick {"/dev/sda"} ["sda", "sdc"]).1 :=
  ⟨by rfl, by decide⟩

/-- C2, amended: `/dev/sdc` is removed only from the startup snapshot
(`KeyError` if it is absent then); each tick computes
arrived = current − known and departed = known − current with no
exclusion and ends with known = current, so whenever `/dev/sdc` is
enumerated at the first tick after startup it appears in the arrived set
and is offered to the orchestrator. -/
theorem spec_c2_exclusion_initial_only (names0 names1 : List String)
    (known : Finset String) :
    (EXCLUDED_DISK ∈ get_disks names0 →
      monitorInit names0 = .ok ((get_disks names0).erase EXCLUDED_DISK)) ∧
    (EXCLUDED_DISK ∉ get_disks names0 →
      monitorInit names0 = .error PyError.keyError) ∧
    monitorTick known names1 =
      (get_disks names1 \ known, known \ get_disks names1,
        get_disks names1) ∧
    (monitorInit names0 = .ok known → EXCLUDED_DISK ∈ get_disks names1 →
      EXCLUDED_DISK ∈ (monitorTick known names1).1) := by
  refine ⟨?_, ?_, monitorTick_spec known names1, ?_⟩
  · intro hm
    simp [monitorInit, hm]
  · intro hm
    simp [monitorInit, hm]
  · intro hinit hmem
    unfold monitorInit at hinit
    by_cases hm : EXCLUDED_DISK ∈ get_disks names0
    · rw [if_pos hm] at hinit
      cases hinit
      rw [monitorTick_spec]
      simp only [Finset.mem_sdiff]
      exact ⟨hmem, Finset.not_mem_erase _ _⟩
    · rw [if_neg hm] at hinit
      cases hinit

/-- C2, witness: the amended theorem applied concretely — after a startup
with `sda` and `sdc` present, a tick that again enumerates `sdc` (here
together with `sdb`) reports it as arrived. -/
theorem spec_c2_witness :
    EXCLUDED_DISK ∈ (monitorTick {"/dev/sda"} ["sdb", "sdc"]).1 :=
  (spec_c2_exclusion_initial_only ["sda", "sdc"] ["sdb", "sdc"]
    {"/dev/sda"}).2.2.2 (by rfl) (by decide)

/-- C3: when something is already mounted at the destination, `mount`
indeed never invokes the external mount utility and asks the operator —
but when the operator declines, the bare `return` yields `None`, which is
falsy, so `process_ntfs_partition` does not skip: it proceeds to scan the
foreign volume and reports success (`False`).  This contradicts the
claimed (and docstring-documented) behaviour that a decline reports
failure and the caller skips the partition without scanning. -/
theorem spec_c3_decline_still_scans :
    (mount "/dev/sdb1" "/mnt/4" w_c3).1 = .ok Option.none ∧
    (mount "/dev/sdb1" "/mnt/4" w_c3).2.2 =
      [SysAction.askOperator
        "/dev/sdb1 is already mounted on /mnt/4, continue?"] ∧
    (process_ntfs_partition "/dev/sdb1" w_c3).1 = .ok false ∧
    SysAction.scanUsers ∈ (process_ntfs_partition "/dev/sdb1" w_c3).2.2 :=
  ⟨by rfl, by rfl, by rfl, by decide⟩

/-- C4, counterexample: the claim says that on an fdisk timeout the
orchestrator treats the device as having zero usable partitions, logging
the no-NTFS-partitions message and returning.  Instead `process_disk`
ends in an uncaught `TimeoutExpired`, and its only action is the disk
banner — the no-partitions message is never printed. -/
theorem spec_c4_counterexample :
    (process_disk "/dev/sdb" w_timeout).1 = .error PyError.timeoutExpired ∧
    (process_disk "/dev/sdb" w_timeout).2.2 =
      [SysAction.printMsg "Found disk "] :=
  ⟨by rfl, by rfl⟩

/-- C4, amended: when the fdisk call times out, `get_ntfs_partitions`
raises a TimeoutError-kind condition which propagates out of
`process_disk` uncaught; the external mount utility is never invoked and
the no-NTFS-partitions message is not printed — the only action taken is
the disk banner. -/
theorem spec_c4_timeout_propagates (disk : String) (w : World)
    (h : w.fdisk = FdiskResult.timeout) :
    (process_disk disk w).1 = .error PyError.timeoutExpired ∧
    (process_disk disk w).2.2 =
      [SysAction.printMsg ("Found disk " ++ get_disk_serial w.udevOut)] := by
  unfold process_disk
  rw [h]
  exact ⟨rfl, rfl⟩

/-- C4, witness: the amended theorem applied to the timeout world. -/
theorem spec_c4_witness :
    (process_disk "/dev/sda" w_timeout).1 = .error PyError.timeoutExpired ∧
    (process_disk "/dev/sda" w_timeout).2.2 =
      [SysAction.printMsg ("Found disk " ++ get_disk_serial w_timeout.udevOut)] :=
  spec_c4_timeout_propagates "/dev/sda" w_timeout (by rfl)

/-- C5: `is_mounted` with only the partition supplied does not return a
boolean — the third branch of the source tests `dest is not None`, which
is false exactly there, so no regex is ever assigned and the first loop
iteration raises `UnboundLocalError`.  The two argument shapes the
program actually uses (destination only, both) do return booleans
computed from the live mount table. -/
theorem spec_c5_part_only_raises :
    is_mounted (some "/dev/sdb1") Option.none mountTableSample =
      .error PyError.unboundLocalError ∧
    is_mounted Option.none (some "/mnt/4") mountTableSample = .ok true ∧
    is_mounted (some "/dev/sda1") (some "/mnt/4") mountTableSample =
      .ok true :=
  ⟨by rfl, by rfl, by rfl⟩

/-- C6, counterexample: the claim says a kept line whose extraction
pattern does not match is skipped and not fatal to the whole parse.  With
one well-formed kept line and one kept line without a partition digit,
the whole call raises `AttributeError` — even the well-formed partition
is lost, rather than the bad line being skipped. -/
theorem spec_c6_counterexample :
    get_ntfs_partitions "/dev/sdb"
      (FdiskResult.output "/dev/sdb1 100 NTFS\n/dev/sdbX NTFS") =
      .error PyError.attributeError := by
  rfl

/-- C6, amended: a kept line whose partition-path extraction pattern does
not match is fatal to the whole parse: `.group(1)` on the failed match
raises `AttributeError` and `get_ntfs_partitions` returns no partitions
at all (it fails loudly rather than skipping the line). -/
theorem spec_c6_extraction_failure_fatal (disk out l : String)
    (hm : l ∈ keptLines disk out)
    (hx : extractPartitionPath l = Option.none) :
    get_ntfs_partitions disk (FdiskResult.output out) =
      .error PyError.attributeError := by
  unfold get_ntfs_partitions
  exact extractAll_error_of_none hm hx

/-- C6, witness: the amended theorem applied to a basic-data line without
a partition digit. -/
theorem spec_c6_witness :
    ("/dev/sdbY Microsoft basic data" ∈
      keptLines "/dev/sdb" "/dev/sdbY Microsoft basic data") ∧
    extractPartitionPath "/dev/sdbY Microsoft basic data" = Option.none ∧
    get_ntfs_partitions "/dev/sdb"
      (FdiskResult.output "/dev/sdbY Microsoft basic data") =
      .error PyError.attributeError :=
  ⟨by decide, by rfl,
   spec_c6_extraction_failure_fatal "/dev/sdb"
     "/dev/sdbY Microsoft basic data" "/dev/sdbY Microsoft basic data"
     (by decide) (by rfl)⟩

/-- C7: whenever the parser returns, it returns one partition per kept
line — a line split of the tool output filtered to lines prefixed by the
device path and containing an NTFS-or-basic-data marker — and the i-th
returned partition is extracted from the i-th kept line, so input line
order is preserved and no partition is invented or dropped. -/
theorem spec_c7_parser_exact (disk out : String) (ps : List String)
    (h : get_ntfs_partitions disk (FdiskResult.output out) = .ok ps) :
    ps.length = (keptLines disk out).length ∧
    ∀ i (h1 : i < (keptLines disk out).length) (h2 : i < ps.length),
      extractPartitionPath ((keptLines disk out).get ⟨i, h1⟩) =
        some (ps.get ⟨i, h2⟩) := by
  unfold get_ntfs_partitions at h
  exact ⟨extractAll_ok_length h, fun i h1 h2 => extractAll_ok_get h i h1 h2⟩

/-- C7, witness: on the sample fdisk output the parser returns exactly the
two marked rows, in input order, and the theorem's correspondence holds
at index 0. -/
theorem spec_c7_witness :
    get_ntfs_partitions "/dev/sdb" (FdiskResult.output fdiskSample) =
      .ok ["/dev/sdb1", "/dev/sdb3"] ∧
    (["/dev/sdb1", "/dev/sdb3"] : List String).length =
      (keptLines "/dev/sdb" fdiskSample).length ∧
    extractPartitionPath
        ((keptLines "/dev/sdb" fdiskSample).get ⟨0, by decide⟩) =
      some "/dev/sdb1" :=
  ⟨by rfl,
   (spec_c7_parser_exact "/dev/sdb" fdiskSample ["/dev/sdb1", "/dev/sdb3"]
      (by rfl)).1,
   (spec_c7_parser_exact "/dev/sdb" fdiskSample ["/dev/sdb1", "/dev/sdb3"]
      (by rfl)).2 0 (by decide) (by decide)⟩

/-- C8, counterexample: the claim (following the spec's words) says the
depth counter reaching zero truncates that subtree to an empty result and
that files beyond the configured maximum depth (default 5) are absent.
In the code truncation only happens once the counter is negative: a call
with counter 0 still lists that directory's immediate files, and with the
default depth 5 a file six path components below the start — five
directory descents, i.e. deeper than the configured limit counts levels —
is still returned. -/
theorem spec_c8_counterexample :
    ["a1", "a2", "a3", "a4", "a5", "deep.jpg"] ∈ list_files [deepTree] 5 ∧
    list_files [FSEntry.file "a"] 0 = [["a"]] := by
  constructor
  · simp [list_files, isFileE, isDirE, isSymlinkE, nameOf, childrenOf,
      deepTree]
  · simp [list_files, isFileE, nameOf]

/-- C8, amended: the walk truncates a branch only when the depth counter
goes below zero (such a call returns the empty result with no error), and
every returned file lies at most `max_depth + 1` path components below
the start — the walk performs at most `max_depth` recursive descents, so
deeper files are absent.  `list_files` is a total Lean function over
arbitrary trees, so no stack or recursion error is modelled to occur. -/
theorem spec_c8_depth_truncation (listing : List FSEntry) (d : Int)
    (p : List String) :
    (d < 0 → list_files listing d = []) ∧
    (p ∈ list_files listing d → (p.length : Int) ≤ d + 1) :=
  ⟨list_files_neg listing d, list_files_depth_bound listing d p⟩

/-- C8, witness: the amended theorem applied at a negative counter and at
the six-component file of the deep chain. -/
theorem spec_c8_witness :
    list_files [FSEntry.file "w"] (-1) = [] ∧
    ((["a1", "a2", "a3", "a4", "a5", "deep.jpg"] : List String).length : Int) ≤
      5 + 1 :=
  ⟨(spec_c8_depth_truncation [FSEntry.file "w"] (-1) []).1 (by decide),
   (spec_c8_depth_truncation [deepTree] 5
      ["a1", "a2", "a3", "a4", "a5", "deep.jpg"]).2
     (by simp [list_files, isFileE, isDirE, isSymlinkE, nameOf, childrenOf,
        deepTree])⟩

/-- C9: on the scenario volume (`Users/alice` with `ntuser.dat` and files
`.jpg`, `.jpg`, `.txt`; `Users/bob` with no marker) `get_users` returns
exactly the one profile `alice` and `count_images` counts 2 images for
it, extensions matched case-insensitively against png/jpg/jpeg/cr2 with
no size filter; in general a subdirectory of `Users` qualifies as a
profile iff an entry named `ntuser.dat` or `NTUSER.DAT` exists directly
inside it. -/
theorem spec_c9_scenario :
    get_users sdb1Volume = .ok [aliceProfile] ∧
    count_images aliceProfile = 2 ∧
    ∀ (usersChildren : List FSEntry) (d : FSEntry),
      d ∈ profileFilter usersChildren ↔
        d ∈ usersChildren ∧ isDirE d = true ∧
          (existsChild (childrenOf d) "ntuser.dat" = true ∨
           existsChild (childrenOf d) "NTUSER.DAT" = true) := by
  refine ⟨by rfl, ?_, ?_⟩
  · simp only [count_images, aliceProfile, childrenOf, list_files, isFileE,
      isDirE, isSymlinkE, nameOf]
    decide
  · intro cs d
    simp [profileFilter, List.mem_filter, Bool.and_eq_true, Bool.or_eq_true,
      and_assoc]

/-- C10: only symbolic links to directories are excluded from the walk —
a symlink to a regular file is treated as a file and listed (and counted
by `count_images` when its extension matches), while a symlink to a
directory contributes nothing; concretely, a profile holding a
symlinked `a.jpg`, a symlinked directory containing `b.jpg`, and a plain
`c.jpg` counts exactly 2 images. -/
theorem spec_c10_symlink_semantics :
    (∀ (f : String) (cs : List FSEntry) (d : Int), 0 ≤ d →
      list_files (FSEntry.symlinkFile f :: cs) d = [f] :: list_files cs d) ∧
    (∀ (m : String) (sub cs : List FSEntry) (d : Int),
      list_files (FSEntry.symlinkDir m sub :: cs) d = list_files cs d) ∧
    count_images (FSEntry.dir "u" [FSEntry.symlinkFile "a.jpg",
      FSEntry.symlinkDir "s" [FSEntry.file "b.jpg"],
      FSEntry.file "c.jpg"]) = 2 := by
  refine ⟨list_files_symlinkFile_cons, list_files_symlinkDir_cons, ?_⟩
  simp only [count_images, childrenOf, list_files, isFileE, isDirE,
    isSymlinkE, nameOf]
  decide

/-- C10, witness: the general parts applied concretely — a lone symlinked
image file is listed, a lone symlinked directory full of images yields
nothing. -/
theorem spec_c10_witness :
    list_files [FSEntry.symlinkFile "pic.jpg"] 5 = [["pic.jpg"]] ∧
    list_files [FSEntry.symlinkDir "loop" [FSEntry.file "x.jpg"]] 5 = [] := by
  constructor
  · rw [spec_c10_symlink_semantics.1 "pic.jpg" [] 5 (by decide)]
    simp [list_files]
  · rw [spec_c10_symlink_semantics.2.1 "loop" [FSEntry.file "x.jpg"] [] 5]
    simp [list_files]
